import Mathlib

/-!
Verification of the `to-frames-plugin` operator (`src/__init__.py`).

The repository is a single adapter class `ToFramesOperator`.  Its only
computational content is the `execute` method:

* a local helper `_parse_wh` that parses a free-text `"w,h"` string into an
  integer pair, returning `None` for blank/missing input and raising a
  `ValueError` for malformed input;
* normalization of the optional string fields (`output_dir`, `rel_dir`,
  `frames_patt`): `params.get(k, None) or None` maps the empty string to
  `None`;
* coercion of the five boolean flags with their defaults
  (`skip_failures` defaults to `True`, the other four to `False`);
* a single synchronous call to the external routine `ctx.view.to_frames(...)`
  with the resolved keyword arguments;
* the result `{"num_frames": len(frames_view)}`.

We embed this shallowly.  Python strings are Lean `String`s; `str.strip`,
`str.split(",")` and `int(...)` are modelled character-by-character below,
following CPython semantics on the relevant inputs (ASCII whitespace,
optional sign, decimal digits with single underscores allowed between
digits).  The external routine `ctx.view.to_frames` is an oracle function
supplied as a parameter; `execute` additionally returns the list of
invocations made to the oracle, so that "called exactly once" and "never
called" are provable statements.
-/

/-- ASCII whitespace characters stripped by Python `str.strip()` (the inputs
relevant here are ASCII; `Char.ofNat 11` and `Char.ofNat 12` are `\v`, `\f`). -/
def pyIsSpace (c : Char) : Bool :=
  c == ' ' || c == '\t' || c == '\n' || c == '\r' || c == Char.ofNat 11 || c == Char.ofNat 12

/-- `str.strip()` on a character list: drop whitespace from both ends. -/
def stripChars (cs : List Char) : List Char :=
  ((cs.dropWhile pyIsSpace).reverse.dropWhile pyIsSpace).reverse

/-- Python `s.strip()`. -/
def pyStrip (s : String) : String :=
  String.mk (stripChars s.data)

/-- `s.split(",")` helper: `cur` is the current (reversed) chunk. -/
def splitCommaAux (cur : List Char) : List Char → List (List Char)
  | [] => [cur.reverse]
  | c :: cs =>
    if c == ',' then cur.reverse :: splitCommaAux [] cs
    else splitCommaAux (c :: cur) cs

/-- Python `s.split(",")`: split on every comma, keeping empty chunks. -/
def pySplitComma (s : String) : List String :=
  (splitCommaAux [] s.data).map String.mk

/-- Decimal value of a digit character, if it is one. -/
def digitVal (c : Char) : Option Nat :=
  if c.isDigit then some (c.toNat - 48) else none

/-- Continuation of Python's integer-literal digit part: `(["_"] digit)*`,
i.e. single underscores are permitted between digits only. -/
def pyDigitsRest (acc : Nat) : List Char → Option Nat
  | [] => some acc
  | '_' :: c :: cs =>
    match digitVal c with
    | some d => pyDigitsRest (acc * 10 + d) cs
    | none => none
  | c :: cs =>
    match digitVal c with
    | some d => pyDigitsRest (acc * 10 + d) cs
    | none => none

/-- Python's integer-literal digit part: at least one digit, then
`pyDigitsRest`. -/
def pyDigitsStart : List Char → Option Nat
  | [] => none
  | c :: cs =>
    match digitVal c with
    | some d => pyDigitsRest d cs
    | none => none

/-- Python `int(s)` on a decimal string: strip whitespace, optional sign,
digit part.  Returns `none` where CPython raises `ValueError`. -/
def pyInt? (s : String) : Option Int :=
  match stripChars s.data with
  | [] => none
  | '+' :: cs => (pyDigitsStart cs).map (fun n => (n : Int))
  | '-' :: cs => (pyDigitsStart cs).map (fun n => -(n : Int))
  | cs => (pyDigitsStart cs).map (fun n => (n : Int))

/-- The message of the `ValueError` raised by CPython's `int(t)` on a
non-integer token `t` (for tokens without quote characters, `repr(t)`
is `'t'`). -/
def intErrorMsg (t : String) : String :=
  "invalid literal for int() with base 10: '" ++ t ++ "'"

/-- The message of the `ValueError` raised by `_parse_wh` itself when the
stripped string `s` does not split into exactly two comma-separated parts. -/
def whErrorMsg (s : String) : String :=
  "Invalid width,height string: '" ++ s ++ "'"

/-- `_parse_wh` from `execute` (src/__init__.py lines 124-133):

```
def _parse_wh(s):
    if not s:
        return None
    s = s.strip()
    if not s:
        return None
    parts = [p.strip() for p in s.split(",")]
    if len(parts) != 2:
        raise ValueError(f"Invalid width,height string: '{s}'")
    return (int(parts[0]), int(parts[1]))
```

The argument is `params.get(key, None)`, hence `Option String`; a falsy
string is the empty string.  `int(parts[0])` is evaluated before
`int(parts[1])`, so the first non-integer token determines the error. -/
def parse_wh (s? : Option String) : Except String (Option (Int × Int)) :=
  match s? with
  | none => Except.ok none
  | some s0 =>
    if s0 = "" then Except.ok none
    else if pyStrip s0 = "" then Except.ok none
    else
      match (pySplitComma (pyStrip s0)).map pyStrip with
      | [a, b] =>
        match pyInt? a with
        | none => Except.error (intErrorMsg a)
        | some w =>
          match pyInt? b with
          | none => Except.error (intErrorMsg b)
          | some h => Except.ok (some (w, h))
      | _ => Except.error (whErrorMsg (pyStrip s0))

/-- `True` when `needle` is a prefix of `hay` (character lists). -/
def listStartsWith : List Char → List Char → Bool
  | [], _ => true
  | _ :: _, [] => false
  | c :: cs, d :: ds => c == d && listStartsWith cs ds

/-- `True` when `needle` occurs contiguously inside `hay`. -/
def listOccurs (needle : List Char) : List Char → Bool
  | [] => listStartsWith needle []
  | d :: ds => listStartsWith needle (d :: ds) || listOccurs needle ds

/-- Python `needle in hay` on strings: substring containment. -/
def containsStr (hay needle : String) : Bool :=
  listOccurs needle.data hay.data

/-- The raw `ctx.params` mapping, restricted to the fields `execute` reads.
Every field is optional (`params.get(key, None)`); the form declares the
boolean fields as booleans, the fps fields as floats (an opaque type `F`
here, since `execute` only passes them through), and the rest as strings. -/
structure Params (F : Type) where
  sample_frames : Option Bool
  sparse : Option Bool
  force_sample : Option Bool
  skip_failures : Option Bool
  verbose : Option Bool
  fps : Option F
  max_fps : Option F
  size : Option String
  min_size : Option String
  max_size : Option String
  output_dir : Option String
  rel_dir : Option String
  frames_patt : Option String
deriving Repr, DecidableEq

/-- The keyword arguments of the single call
`ctx.view.to_frames(...)` (src/__init__.py lines 157-171). -/
structure ToFramesArgs (F : Type) where
  sample_frames : Bool
  fps : Option F
  max_fps : Option F
  size : Option (Int × Int)
  min_size : Option (Int × Int)
  max_size : Option (Int × Int)
  sparse : Bool
  output_dir : Option String
  rel_dir : Option String
  frames_patt : Option String
  force_sample : Bool
  skip_failures : Bool
  verbose : Bool
deriving Repr, DecidableEq

/-- `params.get(key, None) or None`: `None` stays `None`, a falsy (empty)
string becomes `None`, anything else passes through. -/
def normStr (s : Option String) : Option String :=
  match s with
  | none => none
  | some s => if s = "" then none else some s

/-- The view returned by `ctx.view.to_frames`; the adapter only queries its
length (`len(frames_view)`), so it is modelled by that length alone. -/
structure FrameView where
  len : Nat
deriving Repr, DecidableEq

/-- The dictionary `{"num_frames": ...}` returned by `execute`. -/
structure ResultSummary where
  num_frames : Nat
deriving Repr, DecidableEq

/-- The two error channels of `execute`: a locally raised `ValueError` from
`_parse_wh` (validation), or an arbitrary error raised by the external
routine (delegated), carried unchanged. -/
inductive ExecErr (E : Type) where
  | validation (msg : String)
  | delegated (err : E)
deriving Repr, DecidableEq

/-- Argument resolution of `execute` (src/__init__.py lines 136-154): parse
`size`, `min_size`, `max_size` in order (the first `ValueError` aborts),
pass `fps`/`max_fps` through unchanged (the source's
`fps_val if fps_val is not None else None` is the identity), normalize the
string fields, and coerce the booleans with their defaults. -/
def resolveArgs {F : Type} (p : Params F) : Except String (ToFramesArgs F) :=
  match parse_wh p.size with
  | Except.error m => Except.error m
  | Except.ok size_val =>
    match parse_wh p.min_size with
    | Except.error m => Except.error m
    | Except.ok min_size_val =>
      match parse_wh p.max_size with
      | Except.error m => Except.error m
      | Except.ok max_size_val =>
        Except.ok
          { sample_frames := p.sample_frames.getD false
            fps := p.fps
            max_fps := p.max_fps
            size := size_val
            min_size := min_size_val
            max_size := max_size_val
            sparse := p.sparse.getD false
            output_dir := normStr p.output_dir
            rel_dir := normStr p.rel_dir
            frames_patt := normStr p.frames_patt
            force_sample := p.force_sample.getD false
            skip_failures := p.skip_failures.getD true
            verbose := p.verbose.getD false }

/-- `execute` (src/__init__.py lines 117-175).  The external routine
`ctx.view.to_frames` is the oracle `to_frames`, which may itself fail with
an arbitrary error `E`.  Alongside the outcome we return the list of
invocations of the oracle, in order, so that call counts are observable. -/
def execute {F E : Type} (p : Params F)
    (to_frames : ToFramesArgs F → Except E FrameView) :
    Except (ExecErr E) ResultSummary × List (ToFramesArgs F) :=
  match resolveArgs p with
  | Except.error m => (Except.error (ExecErr.validation m), [])
  | Except.ok args =>
    match to_frames args with
    | Except.error e => (Except.error (ExecErr.delegated e), [args])
    | Except.ok fv => (Except.ok ⟨fv.len⟩, [args])

/-!  Helper lemmas shared by the claim theorems. -/

/-- If `execute` made exactly the one call `args`, then argument resolution
succeeded with `args`. -/
theorem trace_eq_resolve {F E : Type} (p : Params F)
    (tf : ToFramesArgs F → Except E FrameView) (args : ToFramesArgs F)
    (hcall : (execute p tf).2 = [args]) : resolveArgs p = Except.ok args := by
  unfold execute at hcall
  cases hres : resolveArgs p with
  | error m => rw [hres] at hcall; simp at hcall
  | ok a =>
    rw [hres] at hcall
    simp only at hcall
    cases htf : tf a with
    | error e =>
      rw [htf] at hcall
      simp at hcall
      rw [hcall]
    | ok fv =>
      rw [htf] at hcall
      simp at hcall
      rw [hcall]

/-- If argument resolution succeeded with `args`, `execute` calls the
external routine exactly once, with `args`. -/
theorem trace_of_resolve {F E : Type} (p : Params F)
    (tf : ToFramesArgs F → Except E FrameView) (args : ToFramesArgs F)
    (h : resolveArgs p = Except.ok args) : (execute p tf).2 = [args] := by
  unfold execute
  rw [h]
  cases htf : tf args <;> simp [htf]

/-- Inversion of successful argument resolution: each dimension field parsed
without error and `args` is exactly the record built from `p`. -/
theorem resolveArgs_ok_spec {F : Type} (p : Params F) (args : ToFramesArgs F)
    (h : resolveArgs p = Except.ok args) :
    ∃ sv mv xv, parse_wh p.size = Except.ok sv
      ∧ parse_wh p.min_size = Except.ok mv
      ∧ parse_wh p.max_size = Except.ok xv
      ∧ args =
        { sample_frames := p.sample_frames.getD false
          fps := p.fps
          max_fps := p.max_fps
          size := sv
          min_size := mv
          max_size := xv
          sparse := p.sparse.getD false
          output_dir := normStr p.output_dir
          rel_dir := normStr p.rel_dir
          frames_patt := normStr p.frames_patt
          force_sample := p.force_sample.getD false
          skip_failures := p.skip_failures.getD true
          verbose := p.verbose.getD false } := by
  cases hs : parse_wh p.size with
  | error m => unfold resolveArgs at h; rw [hs] at h; cases h
  | ok sv =>
    cases hm : parse_wh p.min_size with
    | error m => unfold resolveArgs at h; rw [hs, hm] at h; cases h
    | ok mv =>
      cases hx : parse_wh p.max_size with
      | error m => unfold resolveArgs at h; rw [hs, hm, hx] at h; cases h
      | ok xv =>
        unfold resolveArgs at h
        rw [hs, hm, hx] at h
        injection h with h
        exact ⟨sv, mv, xv, rfl, rfl, rfl, h.symm⟩

/-!  Concrete fixtures used by witness theorems. -/

/-- A `ctx.params` with every field absent. -/
def pDefault : Params Int :=
  ⟨none, none, none, none, none, none, none, none, none, none, none, none, none⟩

/-- The arguments `execute` resolves from an all-absent `ctx.params`. -/
def argsDefault : ToFramesArgs Int :=
  ⟨false, none, none, none, none, none, false, none, none, none, false, true, false⟩

/-- An external routine that returns a view of five frames. -/
def tfOk : ToFramesArgs Int → Except Nat FrameView :=
  fun _ => Except.ok ⟨5⟩

/-- An external routine that fails with error code `42`. -/
def tfErr : ToFramesArgs Int → Except Nat FrameView :=
  fun _ => Except.error 42

/-!  Claim theorems. -/

/-- C8: for a dimension field that is missing (`None`) or the empty string,
`_parse_wh` returns `None` and raises no error. -/
theorem parse_wh_blank_or_missing :
    parse_wh none = Except.ok none ∧ parse_wh (some "") = Except.ok none :=
  ⟨rfl, rfl⟩

/-- C10: for a dimension string consisting only of whitespace characters,
`_parse_wh` returns `None` — the same as empty or missing — and raises no
error. -/
theorem parse_wh_whitespace_only (s : String)
    (h : ∀ c ∈ s.data, pyIsSpace c = true) :
    parse_wh (some s) = Except.ok none := by
  have hstrip : pyStrip s = "" := by
    unfold pyStrip stripChars
    rw [List.dropWhile_eq_nil_iff.mpr h]
    rfl
  unfold parse_wh
  by_cases hs : s = ""
  · simp [hs]
  · simp [hs, hstrip]

/-- C10 witness: the three-space string parses to `None`. -/
theorem parse_wh_whitespace_only_witness :
    parse_wh (some "   ") = Except.ok none :=
  parse_wh_whitespace_only "   " (by decide)

/-- C3: a well-formed dimension string — one whose stripped form splits into
exactly two comma-separated tokens, each integer-parseable after stripping —
parses to the corresponding integer pair, whitespace ignored. -/
theorem parse_wh_wellformed (s t1 t2 : String) (w h : Int)
    (hne : pyStrip s ≠ "")
    (hparts : (pySplitComma (pyStrip s)).map pyStrip = [t1, t2])
    (h1 : pyInt? t1 = some w) (h2 : pyInt? t2 = some h) :
    parse_wh (some s) = Except.ok (some (w, h)) := by
  have hs0 : s ≠ "" := by
    intro he
    exact hne (by rw [he]; rfl)
  simp only [parse_wh]
  rw [if_neg hs0, if_neg hne, hparts]
  simp [h1, h2]

/-- C3 witness: `"640,480"` parses to `(640, 480)` and `" -1 , 720 "` parses
to `(-1, 720)`. -/
theorem parse_wh_wellformed_witness :
    parse_wh (some "640,480") = Except.ok (some (640, 480))
    ∧ parse_wh (some " -1 , 720 ") = Except.ok (some (-1, 720)) :=
  ⟨parse_wh_wellformed "640,480" "640" "480" 640 480 (by decide) rfl rfl rfl,
   parse_wh_wellformed " -1 , 720 " "-1" "720" (-1) 720 (by decide) rfl rfl rfl⟩

/-- C2 counterexample: on the malformed string `"a,b"` the parser does raise
an error, but its message is CPython's `int()` message for the first token
`'a'`; the message does not contain the offending input string `"a,b"`. -/
theorem parse_wh_message_counterexample :
    parse_wh (some "a,b") = Except.error (intErrorMsg "a")
    ∧ containsStr (intErrorMsg "a") "a,b" = false :=
  ⟨rfl, rfl⟩

/-- C2 (amended): every malformed dimension string — non-empty after
stripping, but not exactly two comma-separated integer-parseable tokens —
raises a validation error; when the token count is not two the message
embeds the whole stripped input, and when there are exactly two tokens the
message embeds the first token that fails integer parsing. -/
theorem parse_wh_malformed (s : String) (hne : pyStrip s ≠ "") :
    (((pySplitComma (pyStrip s)).map pyStrip).length ≠ 2 →
        parse_wh (some s) = Except.error (whErrorMsg (pyStrip s)))
    ∧ (∀ t1 t2, (pySplitComma (pyStrip s)).map pyStrip = [t1, t2] →
        (pyInt? t1 = none → parse_wh (some s) = Except.error (intErrorMsg t1))
        ∧ (∀ w, pyInt? t1 = some w → pyInt? t2 = none →
            parse_wh (some s) = Except.error (intErrorMsg t2))) := by
  have hs0 : s ≠ "" := by
    intro he
    exact hne (by rw [he]; rfl)
  refine ⟨?_, ?_⟩
  · intro hlen
    simp only [parse_wh]
    rw [if_neg hs0, if_neg hne]
    rcases hL : (pySplitComma (pyStrip s)).map pyStrip with _ | ⟨a, _ | ⟨b, _ | ⟨c, rest⟩⟩⟩
    · rfl
    · rfl
    · exact absurd (by rw [hL]; rfl) hlen
    · rfl
  · intro t1 t2 hparts
    refine ⟨?_, ?_⟩
    · intro h1
      simp only [parse_wh]
      rw [if_neg hs0, if_neg hne, hparts]
      simp [h1]
    · intro w h1 h2
      simp only [parse_wh]
      rw [if_neg hs0, if_neg hne, hparts]
      simp [h1, h2]

/-- C2 witness: `"640,480,100"` fails with the message embedding the whole
string, and `"a,b"` fails with the message embedding the token `'a'`. -/
theorem parse_wh_malformed_witness :
    parse_wh (some "640,480,100") = Except.error (whErrorMsg (pyStrip "640,480,100"))
    ∧ parse_wh (some "a,b") = Except.error (intErrorMsg "a") :=
  ⟨(parse_wh_malformed "640,480,100" (by decide)).1 (by decide),
   ((parse_wh_malformed "a,b" (by decide)).2 "a" "b" (by decide)).1 rfl⟩

/-- C1: if any of the `size`/`min_size`/`max_size` strings is malformed,
`execute` raises the parse error and the external routine is never called
in that run: the invocation trace is empty. -/
theorem execute_malformed_aborts {F E : Type} (p : Params F)
    (tf : ToFramesArgs F → Except E FrameView)
    (hbad : (∃ m, parse_wh p.size = Except.error m)
      ∨ (∃ m, parse_wh p.min_size = Except.error m)
      ∨ (∃ m, parse_wh p.max_size = Except.error m)) :
    (execute p tf).2 = []
    ∧ ∃ m, (execute p tf).1 = Except.error (ExecErr.validation m) := by
  have hres : ∃ m, resolveArgs p = Except.error m := by
    cases hs : parse_wh p.size with
    | error m => exact ⟨m, by unfold resolveArgs; rw [hs]⟩
    | ok sv =>
      cases hmn : parse_wh p.min_size with
      | error m => exact ⟨m, by unfold resolveArgs; rw [hs, hmn]⟩
      | ok mv =>
        cases hx : parse_wh p.max_size with
        | error m => exact ⟨m, by unfold resolveArgs; rw [hs, hmn, hx]⟩
        | ok xv =>
          rcases hbad with ⟨m, hm⟩ | ⟨m, hm⟩ | ⟨m, hm⟩
          · rw [hs] at hm; cases hm
          · rw [hmn] at hm; cases hm
          · rw [hx] at hm; cases hm
  rcases hres with ⟨m, hm⟩
  refine ⟨?_, m, ?_⟩
  · unfold execute; rw [hm]
  · unfold execute; rw [hm]

/-- C1 witness: with `size="640"` the external routine is never called and a
validation error is returned. -/
theorem execute_malformed_aborts_witness :
    (execute { pDefault with size := some "640" } tfOk).2 = []
    ∧ ∃ m, (execute { pDefault with size := some "640" } tfOk).1
        = Except.error (ExecErr.validation m) :=
  execute_malformed_aborts { pDefault with size := some "640" } tfOk
    (Or.inl ⟨whErrorMsg "640", rfl⟩)

/-- C4: whenever `execute` reaches the external call, every omitted boolean
field is passed at its documented default: `skip_failures` as `True`, the
other four as `False`. -/
theorem execute_bool_defaults {F E : Type} (p : Params F)
    (tf : ToFramesArgs F → Except E FrameView) (args : ToFramesArgs F)
    (hcall : (execute p tf).2 = [args]) :
    (p.sample_frames = none → args.sample_frames = false)
    ∧ (p.sparse = none → args.sparse = false)
    ∧ (p.force_sample = none → args.force_sample = false)
    ∧ (p.skip_failures = none → args.skip_failures = true)
    ∧ (p.verbose = none → args.verbose = false) := by
  obtain ⟨sv, mv, xv, hs, hm, hx, hargs⟩ :=
    resolveArgs_ok_spec p args (trace_eq_resolve p tf args hcall)
  subst hargs
  refine ⟨?_, ?_, ?_, ?_, ?_⟩ <;> intro h <;> simp [h]

/-- C4 witness: an all-absent parameter set resolves to the documented
boolean defaults. -/
theorem execute_bool_defaults_witness :
    (pDefault.sample_frames = none → argsDefault.sample_frames = false)
    ∧ (pDefault.sparse = none → argsDefault.sparse = false)
    ∧ (pDefault.force_sample = none → argsDefault.force_sample = false)
    ∧ (pDefault.skip_failures = none → argsDefault.skip_failures = true)
    ∧ (pDefault.verbose = none → argsDefault.verbose = false) :=
  execute_bool_defaults pDefault tfOk argsDefault rfl

/-- C5: when all three dimension strings parse (or are absent), `execute`
invokes the external routine exactly once, with the parsed pairs, `fps` and
`max_fps` unchanged, the normalized string fields and the coerced booleans. -/
theorem execute_calls_once {F E : Type} (p : Params F)
    (tf : ToFramesArgs F → Except E FrameView)
    (sv mv xv : Option (Int × Int))
    (hs : parse_wh p.size = Except.ok sv)
    (hm : parse_wh p.min_size = Except.ok mv)
    (hx : parse_wh p.max_size = Except.ok xv) :
    (execute p tf).2 =
      [{ sample_frames := p.sample_frames.getD false
         fps := p.fps
         max_fps := p.max_fps
         size := sv
         min_size := mv
         max_size := xv
         sparse := p.sparse.getD false
         output_dir := normStr p.output_dir
         rel_dir := normStr p.rel_dir
         frames_patt := normStr p.frames_patt
         force_sample := p.force_sample.getD false
         skip_failures := p.skip_failures.getD true
         verbose := p.verbose.getD false }] := by
  apply trace_of_resolve
  unfold resolveArgs
  rw [hs, hm, hx]

/-- A parameter set like the spec's worked example: `size="1280,720"`,
`fps=5`, everything else absent. -/
def pSample : Params Int :=
  { pDefault with size := some "1280,720", fps := some 5 }

/-- C5 witness: the worked example calls the routine exactly once with
`size=(1280,720)`, `fps=5` and default booleans. -/
theorem execute_calls_once_witness :
    (execute pSample tfOk).2 =
      [{ argsDefault with size := some (1280, 720), fps := some 5 }] :=
  execute_calls_once pSample tfOk (some (1280, 720)) none none rfl rfl rfl

/-- C6: on success, `execute` returns `{"num_frames": M}` where `M` is
exactly the length of the view returned by the external routine, for an
arbitrary routine — never independently recomputed. -/
theorem execute_returns_len {F E : Type} (p : Params F)
    (tf : ToFramesArgs F → Except E FrameView) (args : ToFramesArgs F)
    (fv : FrameView)
    (hcall : (execute p tf).2 = [args]) (hok : tf args = Except.ok fv) :
    (execute p tf).1 = Except.ok ⟨fv.len⟩ := by
  have hres := trace_eq_resolve p tf args hcall
  unfold execute
  rw [hres]
  simp [hok]

/-- C6 witness: with a routine returning a five-element view, `execute`
returns `{"num_frames": 5}`. -/
theorem execute_returns_len_witness :
    (execute pDefault tfOk).1 = Except.ok ⟨5⟩ :=
  execute_returns_len pDefault tfOk argsDefault ⟨5⟩ rfl rfl

/-- C7: an empty `output_dir`, `rel_dir` or `frames_patt` is passed to the
external routine as `None`, identically to the field being absent, and the
routine is never passed an empty string for these fields. -/
theorem execute_empty_string_fields {F E : Type} (p : Params F)
    (tf : ToFramesArgs F → Except E FrameView) :
    execute { p with output_dir := some "" } tf = execute { p with output_dir := none } tf
    ∧ execute { p with rel_dir := some "" } tf = execute { p with rel_dir := none } tf
    ∧ execute { p with frames_patt := some "" } tf = execute { p with frames_patt := none } tf
    ∧ ∀ args, (execute p tf).2 = [args] →
        args.output_dir ≠ some "" ∧ args.rel_dir ≠ some "" ∧ args.frames_patt ≠ some "" := by
  have hnorm : ∀ o : Option String, normStr o ≠ some "" := by
    intro o
    cases o with
    | none => simp [normStr]
    | some s => by_cases hs : s = "" <;> simp [normStr, hs]
  refine ⟨rfl, rfl, rfl, ?_⟩
  intro args hcall
  obtain ⟨sv, mv, xv, hs, hm, hx, hargs⟩ :=
    resolveArgs_ok_spec p args (trace_eq_resolve p tf args hcall)
  subst hargs
  exact ⟨hnorm _, hnorm _, hnorm _⟩

/-- A parameter set mixing empty and non-empty optional strings. -/
def pEmptyStr : Params Int :=
  { pDefault with output_dir := some "", rel_dir := some "x", frames_patt := some "" }

/-- The arguments resolved from `pEmptyStr`: the empty strings became
`None`, the non-empty string passed through. -/
def argsEmptyStr : ToFramesArgs Int :=
  { argsDefault with rel_dir := some "x" }

/-- C7 witness: with `output_dir=""` and `frames_patt=""`, the single call
receives `None` for both — never an empty string. -/
theorem execute_empty_string_fields_witness :
    (execute pEmptyStr tfOk).2 = [argsEmptyStr]
    ∧ (argsEmptyStr.output_dir ≠ some ""
      ∧ argsEmptyStr.rel_dir ≠ some ""
      ∧ argsEmptyStr.frames_patt ≠ some "") :=
  ⟨rfl, (execute_empty_string_fields pEmptyStr tfOk).2.2.2 argsEmptyStr rfl⟩

/-- C9: any error raised by the external routine propagates unchanged: the
outcome is exactly that error (tagged as delegated), after the single
call, with no catching, transformation or retry. -/
theorem execute_propagates_error {F E : Type} (p : Params F)
    (tf : ToFramesArgs F → Except E FrameView) (args : ToFramesArgs F) (e : E)
    (hcall : (execute p tf).2 = [args]) (herr : tf args = Except.error e) :
    execute p tf = (Except.error (ExecErr.delegated e), [args]) := by
  have hres := trace_eq_resolve p tf args hcall
  unfold execute
  rw [hres]
  simp [herr]

/-- C9 witness: a routine failing with error code `42` makes `execute` fail
with exactly that error, after exactly one call. -/
theorem execute_propagates_error_witness :
    execute pDefault tfErr = (Except.error (ExecErr.delegated 42), [argsDefault]) :=
  execute_propagates_error pDefault tfErr argsDefault 42 rfl rfl
